import Mathlib

/-!
Verification development for the Octopus Spain GraphQL client
(lib/octopus_spain.py): a shallow embedding of `login`, `account` and
`current_consumption`, together with theorems settling the behavioural
claims about them.

Modelling conventions:
* Python `datetime` values are modelled as `Int` seconds; `.date()` is
  floor division by 86400, yielding a day number.  Civil dates are mapped
  to day numbers with the standard days-from-civil algorithm so that
  concrete calendar examples are genuine.
* Python floats are modelled as `ℚ` (every arithmetic operation the code
  performs on the claimed inputs is exact).
* A transport call either raises (an exception constructor), returns a
  response carrying a GraphQL `errors` key, or returns a data payload;
  `Except` models Python exception propagation.
-/

namespace OctopusSpain

/-- `datetime.date()` on a timestamp in seconds: the day number, floor
division (calendar days are unbounded in both directions). -/
def dateOf (t : Int) : Int := t.fdiv 86400

/-- Days from civil date (proleptic Gregorian), day 0 = 1970-01-01.
Standard days-from-civil algorithm, with floor division. -/
def civilDay (y m d : Int) : Int :=
  let y2 : Int := if m ≤ 2 then y - 1 else y
  let era : Int := (if 0 ≤ y2 then y2 else y2 - 399).fdiv 400
  let yoe : Int := y2 - era * 400
  let mp : Int := if 2 < m then m - 3 else m + 9
  let doy : Int := (153 * mp + 2).fdiv 5 + d - 1
  let doe : Int := yoe * 365 + yoe.fdiv 4 - yoe.fdiv 100 + doy
  era * 146097 + doe - 719468

/-- A timestamp (seconds) for a civil date and time of day. -/
def mkDT (y m d h mi s : Int) : Int :=
  civilDay y m d * 86400 + h * 3600 + mi * 60 + s

/-! ## Ledger / billing model (`account`, lib/octopus_spain.py lines 130-187) -/

def ELECTRICITY_LEDGER : String := "SPAIN_ELECTRICITY_LEDGER"
def SOLAR_WALLET_LEDGER : String := "SOLAR_WALLET_LEDGER"

/-- A statement node of `statementsWithDetails.edges[..].node`.  `amount`
is `none` when the provider sends `null` (a falsy value in the Python
code); the three dates are fromisoformat-parsed timestamps in seconds. -/
structure Invoice where
  amount : Option ℚ
  consumptionStartDate : Int
  consumptionEndDate : Int
  issuedDate : Int
  deriving Repr, DecidableEq

/-- One entry of `accountBillingInfo.ledgers`: its type tag, its balance
(minor currency units) and the nodes of `statementsWithDetails.edges`. -/
structure Ledger where
  ledgerType : String
  balance : ℚ
  invoices : List Invoice
  deriving Repr, DecidableEq

/-- The `last_invoice` sub-dictionary of the result of `account`. -/
structure LastInvoice where
  amount : Option ℚ
  issued : Option Int
  start : Option Int
  end_ : Option Int
  deriving Repr, DecidableEq

/-- The dictionary returned by `account`. -/
structure Report where
  solar_wallet : ℚ
  octopus_credit : ℚ
  last_invoice : LastInvoice
  deriving Repr, DecidableEq

/-- The solar-wallet lookup of `account` (line 156): the balance of the
first ledger tagged `SOLAR_WALLET_LEDGER`, defaulting to 0 when no such
ledger exists. -/
def solarBalance (ledgers : List Ledger) : ℚ :=
  match ledgers.find? (fun x => x.ledgerType = SOLAR_WALLET_LEDGER) with
  | none => 0
  | some l => l.balance

/-- `account(self, account)` (lines 130-187), embedded over the parsed
ledger list of the GraphQL response.  `next(filter(..), None)` is
`List.find?`; a raised `Exception` is `Except.error`. -/
def account (ledgers : List Ledger) : Except String Report :=
  match ledgers.find? (fun x => x.ledgerType = ELECTRICITY_LEDGER) with
  | none => Except.error "Electricity ledger not found"
  | some elec =>
    match elec.invoices with
    | [] =>
      Except.ok
        { solar_wallet := solarBalance ledgers / 100
          octopus_credit := elec.balance / 100
          last_invoice := { amount := none, issued := none, start := none, end_ := none } }
    | invoice :: _ =>
      Except.ok
        { solar_wallet := solarBalance ledgers / 100
          octopus_credit := elec.balance / 100
          last_invoice :=
            { amount := some (match invoice.amount with
                | none => 0
                | some v => if v = 0 then 0 else v)
              issued := some (dateOf invoice.issuedDate)
              start := some (dateOf (invoice.consumptionStartDate + 2 * 3600))
              end_ := some (dateOf (invoice.consumptionEndDate - 1)) } }

/-! ## Session / login model (`login`, lines 21-43, and
`_log_schema_debug_info`, lines 45-109) -/

/-- The mutable fields of an `OctopusSpain` object. -/
structure Session where
  email : String
  password : String
  token : Option String
  schema_logged : Bool
  deriving Repr, DecidableEq

/-- Outcome of the single credential-exchange transport call inside
`login`: the call raises, or returns a response.  A response either
carries an `errors` key, or a data payload whose
`data.obtainKrakenToken.token` field is `some` token (`none` models a
malformed payload, on which the Python subscripting raises `KeyError`). -/
inductive LoginTransport where
  | exn : LoginTransport
  | response : Bool → Option String → LoginTransport
  deriving Repr, DecidableEq

/-- `types_to_inspect` of `_log_schema_debug_info` (line 51). -/
def types_to_inspect : List String :=
  ["SIPSElectricityData", "SIPSElectricityMonthlyConsumption", "Measurement",
   "MeasurementType", "Reading"]

/-- Number of transport calls `_log_schema_debug_info` performs: one
`sipsData`-arguments introspection query plus one per inspected type.
Each is inside its own try/except, so their outcomes never affect the
session state or the result of `login`; only their count is modelled. -/
def schemaDebugCalls : Nat := 1 + types_to_inspect.length

/-- `login(self)` (lines 21-43): returns the session state after the
call, the result (`Except.error` models an uncaught exception, `Except.ok`
the returned boolean), and the total number of transport calls made.
On a response with an `errors` key it returns `False` having changed
nothing; on a well-formed success it stores the token, runs the schema
debug inspection if `_schema_logged` was still false (setting it), and
returns `True`; a transport exception or a malformed success payload
propagates. -/
def login (s : Session) (t : LoginTransport) : Session × Except Unit Bool × Nat :=
  match t with
  | LoginTransport.exn => (s, Except.error (), 1)
  | LoginTransport.response true _ => (s, Except.ok false, 1)
  | LoginTransport.response false none => (s, Except.error (), 1)
  | LoginTransport.response false (some tok) =>
    ({ s with token := some tok, schema_logged := true }, Except.ok true,
      if s.schema_logged then 1 else 1 + schemaDebugCalls)

/-! ## Consumption model (`current_consumption`, lines 189-293) -/

deriving instance DecidableEq for Except

/-- One element of `sipsData.monthlyConsumptions`.  `endDate` is `none`
when the key is absent or falsy (the month is skipped), `some (error ())`
when the date string fails to parse (the `fromisoformat`/`strptime` call
raises, caught per month), and `some (ok d)` a parsed day number.  The
three energy fields are `none` when absent or `null` (`or 0` in the
code). -/
structure MonthData where
  endDate : Option (Except Unit Int)
  p1 : Option ℚ
  p2 : Option ℚ
  p3 : Option ℚ
  deriving Repr, DecidableEq

/-- One element of `properties[..].electricitySupplyPoints`; `cups` is
`none` when the key is absent. -/
structure SupplyPoint where
  cups : Option String
  deriving Repr, DecidableEq

/-- One element of `account.properties`; `points` is `none` when the
`electricitySupplyPoints` key is absent. -/
structure Property where
  points : Option (List SupplyPoint)
  deriving Repr, DecidableEq

/-- Outcome of the top-level CUPS query (lines 206-224): the call raises,
the response has an `errors` key, or it has a payload — `none` when
`data` is absent or `data.account` is falsy, otherwise the property
list. -/
inductive TopResult where
  | exn : TopResult
  | errors : TopResult
  | ok : Option (List Property) → TopResult
  deriving Repr, DecidableEq

/-- Outcome of one `sipsData` query (lines 260-267): the call (or the
payload traversal) raises, the response has an `errors` key, or it has a
payload — `none` when `sipsData` is falsy or lacks `monthlyConsumptions`,
otherwise the month list. -/
inductive SipsResult where
  | exn : SipsResult
  | errors : SipsResult
  | ok : Option (List MonthData) → SipsResult
  deriving Repr, DecidableEq

/-- The body of the per-month loop (lines 271-288): skip months with no
(or unparseable) `endDate`, and months ending before `start.date()`;
otherwise add P1+P2+P3 (Wh, absent values count 0) divided by 1000. -/
def monthContribution (startDay : Int) (m : MonthData) : ℚ :=
  match m.endDate with
  | none => 0
  | some (Except.error _) => 0
  | some (Except.ok monthEnd) =>
    if startDay ≤ monthEnd then
      ((m.p1.getD 0) + (m.p2.getD 0) + (m.p3.getD 0)) / 1000
    else 0

/-- The CUPS-collection loop (lines 217-224): every `cups` value of every
supply-point list of every property, in order. -/
def meterIds (props : List Property) : List String :=
  (props.map (fun p =>
    match p.points with
    | none => []
    | some pts => pts.filterMap (fun pt => pt.cups))).flatten

/-- The body of the per-CUPS loop (lines 254-291): on a raised exception,
an `errors` response, a falsy `sipsData` or a missing
`monthlyConsumptions` key the accumulator is unchanged; otherwise the
inner month loop runs over the accumulator. -/
def sipsLoop (startDay : Int) (acc : ℚ) (r : SipsResult) : ℚ :=
  match r with
  | SipsResult.exn => acc
  | SipsResult.errors => acc
  | SipsResult.ok none => acc
  | SipsResult.ok (some months) =>
    months.foldl (fun acc2 m => acc2 + monthContribution startDay m) acc

/-- `current_consumption(self, account, start)` (lines 189-293), embedded
over the top-level query outcome, the per-CUPS `sipsData` outcomes, and
the `start` timestamp (seconds).  Mirrors the Python control flow: the
top-level failure returns 0, an empty meter list returns 0, and the
per-CUPS loop accumulates month contributions, skipping a CUPS on any
failure. -/
def current_consumption (top : TopResult) (sips : String → SipsResult)
    (start : Int) : ℚ :=
  match top with
  | TopResult.exn => 0
  | TopResult.errors => 0
  | TopResult.ok oprops =>
    let meter_ids : List String :=
      match oprops with
      | none => []
      | some props => meterIds props
    if meter_ids = [] then 0
    else
      meter_ids.foldl
        (fun acc cups_id => sipsLoop (dateOf start) acc (sips cups_id)) 0

/-- Total contribution of a single supply point: zero on any fetch
failure or missing payload, otherwise the sum of its month
contributions. -/
def pointContribution (r : SipsResult) (startDay : Int) : ℚ :=
  match r with
  | SipsResult.exn => 0
  | SipsResult.errors => 0
  | SipsResult.ok none => 0
  | SipsResult.ok (some months) => (months.map (monthContribution startDay)).sum

/-! ## The algorithm the specification describes (for the refinement
claim about `current_consumption`): sort a cumulative measurement series
by timestamp, take last minus first, normalize the unit. -/

/-- A measurement as the specification describes it: timestamp, cumulative
numeric value, unit string. -/
structure SpecMeasurement where
  timestamp : Int
  value : ℚ
  unit : String
  deriving Repr, DecidableEq

/-- Insertion into a timestamp-sorted list. -/
def insertByTs (m : SpecMeasurement) : List SpecMeasurement → List SpecMeasurement
  | [] => [m]
  | x :: xs =>
    if m.timestamp ≤ x.timestamp then m :: x :: xs else x :: insertByTs m xs

/-- Insertion sort ascending by timestamp. -/
def sortByTs (l : List SpecMeasurement) : List SpecMeasurement :=
  l.foldr insertByTs []

/-- The per-point consumption the specification claims: an empty series
contributes zero; otherwise sort ascending by timestamp and take the
difference between the last and first cumulative values, divided by 1000
when the values are in Wh and unchanged for kWh. -/
def specPointConsumption (series : List SpecMeasurement) : ℚ :=
  match sortByTs series with
  | [] => 0
  | first :: rest =>
    let lastM := rest.getLastD first
    let diff := lastM.value - first.value
    if first.unit = "Wh" then diff / 1000 else diff

/-! ## Helper lemmas -/

/-- The inner month loop accumulates the sum of month contributions. -/
theorem foldl_month_eq (d : Int) (months : List MonthData) :
    ∀ acc : ℚ, months.foldl (fun acc2 m => acc2 + monthContribution d m) acc
      = acc + (months.map (monthContribution d)).sum := by
  induction months with
  | nil => intro acc; simp
  | cons m ms ih =>
    intro acc
    simp only [List.foldl_cons, List.map_cons, List.sum_cons, ih]
    ring

/-- One pass of the per-CUPS loop adds exactly the point contribution. -/
theorem sipsLoop_eq (d : Int) (acc : ℚ) (r : SipsResult) :
    sipsLoop d acc r = acc + pointContribution r d := by
  cases r with
  | exn => simp [sipsLoop, pointContribution]
  | errors => simp [sipsLoop, pointContribution]
  | ok om =>
    cases om with
    | none => simp [sipsLoop, pointContribution]
    | some months => simp [sipsLoop, pointContribution, foldl_month_eq]

/-- On a successful top-level fetch, `current_consumption` is the sum of
the per-supply-point contributions. -/
theorem consumption_ok_eq_sum (props : List Property) (sips : String → SipsResult)
    (start : Int) :
    current_consumption (TopResult.ok (some props)) sips start
      = ((meterIds props).map (fun c => pointContribution (sips c) (dateOf start))).sum := by
  have key : ∀ (ids : List String) (acc : ℚ),
      ids.foldl (fun acc cups_id => sipsLoop (dateOf start) acc (sips cups_id)) acc
        = acc + (ids.map (fun c => pointContribution (sips c) (dateOf start))).sum := by
    intro ids
    induction ids with
    | nil => intro acc; simp
    | cons c cs ih =>
      intro acc
      rw [List.foldl_cons, ih, sipsLoop_eq, List.map_cons, List.sum_cons]
      ring
  by_cases hids : meterIds props = []
  · simp [current_consumption, hids]
  · simp [current_consumption, hids, key]

/-! ## Claims about `current_consumption` -/

/-- C1 (counterexample): the claim says each supply point's contribution
is the difference between the last and first values of its
timestamp-sorted series, so that the two-point Wh series 1000, 3000
yields 2.0 kWh.  The code instead sums the monthly values: on a supply
point whose two monthly records carry 1000 Wh and 3000 Wh it returns
4 kWh, while the claimed last-minus-first rule (embodied by
`specPointConsumption`) yields 2 — and 4 is not 2. -/
theorem C1_counterexample :
    current_consumption
        (TopResult.ok (some [{ points := some [{ cups := some "ES001" }] }]))
        (fun _ => SipsResult.ok (some
          [{ endDate := some (Except.ok 10), p1 := some 1000, p2 := none, p3 := none },
           { endDate := some (Except.ok 20), p1 := some 3000, p2 := none, p3 := none }]))
        0 = 4
    ∧ specPointConsumption
        [{ timestamp := 10, value := 1000, unit := "Wh" },
         { timestamp := 20, value := 3000, unit := "Wh" }] = 2
    ∧ (4 : ℚ) ≠ 2 := by
  have hd0 : dateOf 0 = 0 := rfl
  refine ⟨?_, ?_, by norm_num⟩
  · rw [consumption_ok_eq_sum]
    simp [meterIds, pointContribution, monthContribution, hd0]
    norm_num
  · simp [specPointConsumption, sortByTs, insertByTs, List.getLastD]
    norm_num

/-- C1 (amended): `current_consumption` computes each supply point's
contribution as the sum over the point's monthly consumption records with
a parseable end date on or after `start.date()` of
(P1 + P2 + P3) / 1000 — all values are Wh, absent values count 0 — and
returns the sum of these contributions over all supply points of all
properties; in particular a supply point with two monthly records of
1000 Wh and 3000 Wh yields 4.0 kWh (not a last-minus-first difference). -/
theorem C1_amended_monthly_sum :
    (∀ (props : List Property) (sips : String → SipsResult) (start : Int),
      current_consumption (TopResult.ok (some props)) sips start
        = ((meterIds props).map (fun c => pointContribution (sips c) (dateOf start))).sum)
    ∧ (∀ (d : Int) (months : List MonthData),
        pointContribution (SipsResult.ok (some months)) d
          = (months.map (monthContribution d)).sum)
    ∧ (∀ (d e : Int) (a b c : Option ℚ),
        monthContribution d { endDate := some (Except.ok e), p1 := a, p2 := b, p3 := c }
          = if d ≤ e then (a.getD 0 + b.getD 0 + c.getD 0) / 1000 else 0)
    ∧ current_consumption
        (TopResult.ok (some [{ points := some [{ cups := some "ES001" }] }]))
        (fun _ => SipsResult.ok (some
          [{ endDate := some (Except.ok 10), p1 := some 1000, p2 := none, p3 := none },
           { endDate := some (Except.ok 20), p1 := some 3000, p2 := none, p3 := none }]))
        0 = 4 := by
  have hd0 : dateOf 0 = 0 := rfl
  refine ⟨fun props sips start => consumption_ok_eq_sum props sips start,
    fun d months => rfl, fun d e a b c => rfl, ?_⟩
  rw [consumption_ok_eq_sum]
  simp [meterIds, pointContribution, monthContribution, hd0]
  norm_num

/-- C2: `current_consumption` never raises; it returns 0 when the
top-level properties fetch raises or the response carries a GraphQL
`errors` key (or has no usable account payload), and on a successful
top-level fetch the total is the sum of per-supply-point contributions,
where a supply point whose `sipsData` fetch raises, returns `errors`, or
yields no parseable payload contributes exactly 0 while every other
supply point still contributes its value. -/
theorem C2_failure_isolation :
    (∀ (sips : String → SipsResult) (start : Int),
        current_consumption TopResult.exn sips start = 0)
    ∧ (∀ (sips : String → SipsResult) (start : Int),
        current_consumption TopResult.errors sips start = 0)
    ∧ (∀ (sips : String → SipsResult) (start : Int),
        current_consumption (TopResult.ok none) sips start = 0)
    ∧ (∀ (props : List Property) (sips : String → SipsResult) (start : Int),
        current_consumption (TopResult.ok (some props)) sips start
          = ((meterIds props).map (fun c => pointContribution (sips c) (dateOf start))).sum)
    ∧ (∀ d : Int, pointContribution SipsResult.exn d = 0
        ∧ pointContribution SipsResult.errors d = 0
        ∧ pointContribution (SipsResult.ok none) d = 0) := by
  refine ⟨fun sips start => rfl, fun sips start => rfl, fun sips start => rfl,
    fun props sips start => consumption_ok_eq_sum props sips start,
    fun d => ⟨rfl, rfl, rfl⟩⟩

/-- C3 (counterexample): the claim says the total is non-negative for
every input because negative supply-point differences are clamped to 0.
The code performs no clamping: a supply point whose single monthly record
carries the value -5000 Wh makes `current_consumption` return -5, which
is negative. -/
theorem C3_counterexample :
    current_consumption
        (TopResult.ok (some [{ points := some [{ cups := some "ES002" }] }]))
        (fun _ => SipsResult.ok (some
          [{ endDate := some (Except.ok 10), p1 := some (-5000), p2 := none, p3 := none }]))
        0 = -5
    ∧ ¬ (0 : ℚ) ≤ -5 := by
  have hd0 : dateOf 0 = 0 := rfl
  refine ⟨?_, by norm_num⟩
  rw [consumption_ok_eq_sum]
  simp [meterIds, pointContribution, monthContribution, hd0]
  norm_num

/-- C3 (amended): the code performs no clamping, so the total is only
guaranteed non-negative when every monthly energy value delivered for
every supply point is non-negative (absent values count 0); under that
hypothesis the total is non-negative for every input. -/
theorem C3_nonneg_of_nonneg_inputs (top : TopResult) (sips : String → SipsResult)
    (start : Int)
    (h : ∀ (c : String) (months : List MonthData) (m : MonthData),
        sips c = SipsResult.ok (some months) → m ∈ months →
        0 ≤ m.p1.getD 0 ∧ 0 ≤ m.p2.getD 0 ∧ 0 ≤ m.p3.getD 0) :
    0 ≤ current_consumption top sips start := by
  cases top with
  | exn => simp [current_consumption]
  | errors => simp [current_consumption]
  | ok oprops =>
    cases oprops with
    | none => simp [current_consumption]
    | some props =>
      rw [consumption_ok_eq_sum]
      apply List.sum_nonneg
      intro x hx
      simp only [List.mem_map] at hx
      obtain ⟨c, hc, rfl⟩ := hx
      cases hs : sips c with
      | exn => simp [pointContribution]
      | errors => simp [pointContribution]
      | ok om =>
        cases om with
        | none => simp [pointContribution]
        | some months =>
          simp only [pointContribution]
          apply List.sum_nonneg
          intro y hy
          simp only [List.mem_map] at hy
          obtain ⟨m, hm, rfl⟩ := hy
          obtain ⟨h1, h2, h3⟩ := h c months m hs hm
          cases hed : m.endDate with
          | none => simp [monthContribution, hed]
          | some ed =>
            cases ed with
            | error u => simp [monthContribution, hed]
            | ok d =>
              simp only [monthContribution, hed]
              by_cases hd : dateOf start ≤ d
              · rw [if_pos hd]
                apply div_nonneg
                · linarith
                · norm_num
              · rw [if_neg hd]

/-- C3 witness: a concrete run with non-negative monthly values, shown
non-negative by the amended theorem. -/
theorem C3_nonneg_witness :
    0 ≤ current_consumption
        (TopResult.ok (some [{ points := some [{ cups := some "ES003" }] }]))
        (fun _ => SipsResult.ok (some
          [{ endDate := some (Except.ok 5), p1 := some 100, p2 := some 200, p3 := none }]))
        0 := by
  refine C3_nonneg_of_nonneg_inputs _ _ _ ?_
  intro c months m hc hm
  cases hc
  simp only [List.mem_singleton] at hm
  subst hm
  refine ⟨by norm_num, by norm_num, by norm_num⟩

/-! ## Claims about `account` -/

/-- C4: for every invoice, `account` reports the consumption-period
start as `consumptionStartDate` shifted forward by 2 hours then truncated
to a date, and the end as `consumptionEndDate` shifted backward by 1
second then truncated; concretely 2024-01-01T23:00:00 + 2h truncates to
2024-01-02 and 2024-02-01T00:00:00 - 1s truncates to 2024-01-31. -/
theorem C4_invoice_dates (b : ℚ) (inv : Invoice) (invs : List Invoice)
    (rest : List Ledger) :
    (∃ r, account
        ({ ledgerType := ELECTRICITY_LEDGER
           balance := b
           invoices := inv :: invs } :: rest) = Except.ok r
        ∧ r.last_invoice.start = some (dateOf (inv.consumptionStartDate + 2 * 3600))
        ∧ r.last_invoice.end_ = some (dateOf (inv.consumptionEndDate - 1)))
    ∧ dateOf (mkDT 2024 1 1 23 0 0 + 2 * 3600) = civilDay 2024 1 2
    ∧ dateOf (mkDT 2024 1 1 0 0 0 + 2 * 3600) = civilDay 2024 1 1
    ∧ dateOf (mkDT 2024 2 1 0 0 0 - 1) = civilDay 2024 1 31 := by
  have hacc : account
      ({ ledgerType := ELECTRICITY_LEDGER
         balance := b
         invoices := inv :: invs } :: rest) = Except.ok
      { solar_wallet :=
          solarBalance
            ({ ledgerType := ELECTRICITY_LEDGER
               balance := b
               invoices := inv :: invs } :: rest) / 100
        octopus_credit := b / 100
        last_invoice :=
          { amount := some (match inv.amount with
              | none => 0
              | some v => if v = 0 then 0 else v)
            issued := some (dateOf inv.issuedDate)
            start := some (dateOf (inv.consumptionStartDate + 2 * 3600))
            end_ := some (dateOf (inv.consumptionEndDate - 1)) } } := by
    simp [account, ELECTRICITY_LEDGER]
  exact ⟨⟨_, hacc, rfl, rfl⟩, by decide, by decide, by decide⟩

/-- C5: when no ledger of the list has type `SPAIN_ELECTRICITY_LEDGER`,
`account` raises the "Electricity ledger not found" exception instead of
returning a result. -/
theorem C5_missing_ledger (ledgers : List Ledger)
    (h : ∀ l ∈ ledgers, l.ledgerType ≠ ELECTRICITY_LEDGER) :
    account ledgers = Except.error "Electricity ledger not found" := by
  have hf : ledgers.find? (fun x => x.ledgerType = ELECTRICITY_LEDGER) = none := by
    rw [List.find?_eq_none]
    intro x hx
    simpa using h x hx
  simp [account, hf]

/-- C5 witness: an account with only a solar-wallet ledger fails with the
ledger-not-found error. -/
theorem C5_missing_ledger_witness :
    account [{ ledgerType := "SOLAR_WALLET_LEDGER", balance := 500, invoices := [] }]
      = Except.error "Electricity ledger not found" :=
  C5_missing_ledger _ (by decide)

/-- C6: when the electricity ledger is present but has no invoices,
`account` succeeds with all `last_invoice` fields null while both
balances are still the numeric ledger balances divided by 100. -/
theorem C6_empty_invoices (ledgers : List Ledger) (e : Ledger)
    (hfind : ledgers.find? (fun x => x.ledgerType = ELECTRICITY_LEDGER) = some e)
    (hinv : e.invoices = []) :
    account ledgers = Except.ok
      { solar_wallet := solarBalance ledgers / 100
        octopus_credit := e.balance / 100
        last_invoice := { amount := none, issued := none, start := none, end_ := none } } := by
  simp [account, hfind, hinv]

/-- C6 witness: a concrete account with an invoice-free electricity
ledger and a solar-wallet ledger. -/
theorem C6_empty_invoices_witness :
    account [{ ledgerType := "SPAIN_ELECTRICITY_LEDGER", balance := 250, invoices := [] },
             { ledgerType := "SOLAR_WALLET_LEDGER", balance := 40, invoices := [] }]
      = Except.ok
        { solar_wallet := solarBalance
            [{ ledgerType := "SPAIN_ELECTRICITY_LEDGER", balance := 250, invoices := [] },
             { ledgerType := "SOLAR_WALLET_LEDGER", balance := 40, invoices := [] }] / 100
          octopus_credit := (250 : ℚ) / 100
          last_invoice := { amount := none, issued := none, start := none, end_ := none } } :=
  C6_empty_invoices
    [{ ledgerType := "SPAIN_ELECTRICITY_LEDGER", balance := 250, invoices := [] },
     { ledgerType := "SOLAR_WALLET_LEDGER", balance := 40, invoices := [] }]
    { ledgerType := "SPAIN_ELECTRICITY_LEDGER", balance := 250, invoices := [] }
    rfl rfl

/-- C8: on every successful report the electricity balance is the ledger
balance divided by exactly 100 and the solar-wallet balance is the
solar-wallet lookup divided by 100; when no ledger has type
`SOLAR_WALLET_LEDGER` the reported solar-wallet balance is exactly 0. -/
theorem C8_minor_units (ledgers : List Ledger) (e : Ledger) (r : Report)
    (hfind : ledgers.find? (fun x => x.ledgerType = ELECTRICITY_LEDGER) = some e)
    (hr : account ledgers = Except.ok r) :
    r.octopus_credit = e.balance / 100
    ∧ r.solar_wallet = solarBalance ledgers / 100
    ∧ ((∀ l ∈ ledgers, l.ledgerType ≠ SOLAR_WALLET_LEDGER) → r.solar_wallet = 0) := by
  have hsolar : (∀ l ∈ ledgers, l.ledgerType ≠ SOLAR_WALLET_LEDGER) →
      solarBalance ledgers = 0 := by
    intro hnone
    have hf : ledgers.find? (fun x => x.ledgerType = SOLAR_WALLET_LEDGER) = none := by
      rw [List.find?_eq_none]
      intro x hx
      simpa using hnone x hx
    simp [solarBalance, hf]
  cases hinv : e.invoices with
  | nil =>
    have hacc : account ledgers = Except.ok
        { solar_wallet := solarBalance ledgers / 100
          octopus_credit := e.balance / 100
          last_invoice := { amount := none, issued := none, start := none, end_ := none } } := by
      simp [account, hfind, hinv]
    rw [hacc] at hr
    injection hr with hr
    subst hr
    exact ⟨rfl, rfl, fun hn => by simp [hsolar hn]⟩
  | cons a as =>
    have hacc : account ledgers = Except.ok
        { solar_wallet := solarBalance ledgers / 100
          octopus_credit := e.balance / 100
          last_invoice :=
            { amount := some (match a.amount with
                | none => 0
                | some v => if v = 0 then 0 else v)
              issued := some (dateOf a.issuedDate)
              start := some (dateOf (a.consumptionStartDate + 2 * 3600))
              end_ := some (dateOf (a.consumptionEndDate - 1)) } } := by
      simp [account, hfind, hinv]
    rw [hacc] at hr
    injection hr with hr
    subst hr
    exact ⟨rfl, rfl, fun hn => by simp [hsolar hn]⟩

/-- C8 witness: a concrete account with only an electricity ledger:
credit 250 cents reports as 250/100 and the solar balance is 0. -/
theorem C8_minor_units_witness :
    ({ solar_wallet := 0
       octopus_credit := 5 / 2
       last_invoice := { amount := none, issued := none, start := none, end_ := none } }
          : Report).octopus_credit = (250 : ℚ) / 100
    ∧ ({ solar_wallet := 0
         octopus_credit := 5 / 2
         last_invoice := { amount := none, issued := none, start := none, end_ := none } }
          : Report).solar_wallet
        = solarBalance [{ ledgerType := "SPAIN_ELECTRICITY_LEDGER", balance := 250, invoices := [] }] / 100
    ∧ ({ solar_wallet := 0
         octopus_credit := 5 / 2
         last_invoice := { amount := none, issued := none, start := none, end_ := none } }
          : Report).solar_wallet = 0 := by
  have h := C8_minor_units
    [{ ledgerType := "SPAIN_ELECTRICITY_LEDGER", balance := 250, invoices := [] }]
    { ledgerType := "SPAIN_ELECTRICITY_LEDGER", balance := 250, invoices := [] }
    { solar_wallet := 0
      octopus_credit := 5 / 2
      last_invoice := { amount := none, issued := none, start := none, end_ := none } }
    rfl (by
      have hne : "SPAIN_ELECTRICITY_LEDGER" ≠ "SOLAR_WALLET_LEDGER" := by decide
      norm_num [account, solarBalance, ELECTRICITY_LEDGER, SOLAR_WALLET_LEDGER, hne])
  exact ⟨h.1, h.2.1, h.2.2 (by decide)⟩

/-- C10: when the most recent invoice exists but its amount is null or
zero (falsy in the source), `account` still succeeds and reports the
amount as 0 — not null — while the issued, start and end dates are parsed
and populated from that invoice. -/
theorem C10_falsy_amount (b : ℚ) (inv : Invoice) (invs : List Invoice)
    (rest : List Ledger)
    (h : inv.amount = none ∨ inv.amount = some 0) :
    account
        ({ ledgerType := ELECTRICITY_LEDGER
           balance := b
           invoices := inv :: invs } :: rest)
      = Except.ok
        { solar_wallet :=
            solarBalance
              ({ ledgerType := ELECTRICITY_LEDGER
                 balance := b
                 invoices := inv :: invs } :: rest) / 100
          octopus_credit := b / 100
          last_invoice :=
            { amount := some 0
              issued := some (dateOf inv.issuedDate)
              start := some (dateOf (inv.consumptionStartDate + 2 * 3600))
              end_ := some (dateOf (inv.consumptionEndDate - 1)) } } := by
  rcases h with h | h <;> simp [account, ELECTRICITY_LEDGER, h]

/-- C10 witness: a concrete invoice with a null amount reports amount 0
with its dates populated. -/
theorem C10_falsy_amount_witness :
    account
        [({ ledgerType := "SPAIN_ELECTRICITY_LEDGER"
            balance := 100
            invoices := [{ amount := none
                           consumptionStartDate := 0
                           consumptionEndDate := 86400
                           issuedDate := 100000 }] } : Ledger)]
      = Except.ok
        { solar_wallet :=
            solarBalance
              [({ ledgerType := "SPAIN_ELECTRICITY_LEDGER"
                  balance := 100
                  invoices := [{ amount := none
                                 consumptionStartDate := 0
                                 consumptionEndDate := 86400
                                 issuedDate := 100000 }] } : Ledger)] / 100
          octopus_credit := (100 : ℚ) / 100
          last_invoice :=
            { amount := some 0
              issued := some (dateOf 100000)
              start := some (dateOf (0 + 2 * 3600))
              end_ := some (dateOf (86400 - 1)) } } :=
  C10_falsy_amount 100
    { amount := none
      consumptionStartDate := 0
      consumptionEndDate := 86400
      issuedDate := 100000 } [] [] (Or.inl rfl)

/-! ## Claims about `login` -/

/-- C7 (counterexample): the claim says `login` never raises.  But the
single credential-exchange transport call is not wrapped in any
try/except, so when the transport raises, `login` propagates the
exception instead of returning a boolean: on the concrete session below
the result is an error, not `ok true` or `ok false`. -/
theorem C7_counterexample :
    (login { email := "user", password := "pw", token := none, schema_logged := false }
        LoginTransport.exn).2.1 = Except.error ()
    ∧ (login { email := "user", password := "pw", token := none, schema_logged := false }
        LoginTransport.exn).2.1 ≠ Except.ok true
    ∧ (login { email := "user", password := "pw", token := none, schema_logged := false }
        LoginTransport.exn).2.1 ≠ Except.ok false := by
  refine ⟨rfl, by decide, by decide⟩

/-- C7 (amended): when the transport returns a response, `login` returns
a boolean — `false` on a response carrying an `errors` key, leaving the
whole session state (in particular the token) unchanged, and `true` on a
well-formed success after storing the returned token; but a transport
exception (and likewise a success payload missing the token field)
propagates out of `login` as an exception with the state unchanged. -/
theorem C7_amended_login (s : Session) (o : Option String) (tok : String) :
    login s (LoginTransport.response true o) = (s, Except.ok false, 1)
    ∧ login s (LoginTransport.response false (some tok))
        = ({ s with token := some tok, schema_logged := true }, Except.ok true,
            if s.schema_logged then 1 else 1 + schemaDebugCalls)
    ∧ login s LoginTransport.exn = (s, Except.error (), 1)
    ∧ login s (LoginTransport.response false none) = (s, Except.error (), 1) :=
  ⟨rfl, rfl, rfl, rfl⟩

/-- C9 (counterexample): the claim says the only state change of `login`
is setting the token and no additional transport calls are made.  On the
first successful login the code also flips `_schema_logged` from false to
true and runs `_log_schema_debug_info`, which performs 6 further
transport calls (7 in total), refuting both parts. -/
theorem C9_counterexample :
    (login { email := "user", password := "pw", token := none, schema_logged := false }
        (LoginTransport.response false (some "tok"))).1.schema_logged = true
    ∧ ({ email := "user", password := "pw", token := none, schema_logged := false }
        : Session).schema_logged = false
    ∧ (login { email := "user", password := "pw", token := none, schema_logged := false }
        (LoginTransport.response false (some "tok"))).2.2 = 7
    ∧ (7 : Nat) ≠ 1 := by
  refine ⟨rfl, rfl, rfl, by decide⟩

/-- C9 (amended): `login` leaves the email and password fields unchanged
in every case; on failure paths the entire session state is unchanged and
exactly one transport call is made; on success it sets the token and the
`_schema_logged` flag, making exactly one transport call when the flag
was already set and 1 + 6 = 7 calls (the schema-introspection queries) on
the first success. -/
theorem C9_amended_frame (s : Session) (o : Option String) (tok : String) :
    ((login s LoginTransport.exn).1 = s ∧ (login s LoginTransport.exn).2.2 = 1)
    ∧ ((login s (LoginTransport.response true o)).1 = s
        ∧ (login s (LoginTransport.response true o)).2.2 = 1)
    ∧ ((login s (LoginTransport.response false none)).1 = s
        ∧ (login s (LoginTransport.response false none)).2.2 = 1)
    ∧ ((login s (LoginTransport.response false (some tok))).1
          = { email := s.email, password := s.password, token := some tok,
              schema_logged := true }
        ∧ (login s (LoginTransport.response false (some tok))).2.2
          = if s.schema_logged then 1 else 1 + schemaDebugCalls)
    ∧ schemaDebugCalls = 6 :=
  ⟨⟨rfl, rfl⟩, ⟨rfl, rfl⟩, ⟨rfl, rfl⟩, ⟨rfl, rfl⟩, rfl⟩

end OctopusSpain
